import Mathlib

/-!
Verification development for the SentinelGov crisis-simulation engine.

The definitions below are a shallow embedding of the TypeScript sources
under `src/orchestrator/` (crisisEngine.ts, negotiationEngine.ts,
floodGrid.ts, graphTwin.ts and the seeded PRNG).  JavaScript numbers are
modelled as rationals (ℚ); `Math.round` is modelled as `jsRound`
(floor of x + 1/2, which is the JS semantics for nonnegative and
negative arguments alike).
-/

namespace SentinelGov

-- Core marks these rational operations irreducible, which blocks `decide`
-- from evaluating concrete instances; restore the default transparency for
-- this development (proof checking is unaffected).
attribute [local semireducible] Rat.mul Rat.add Rat.sub Rat.inv Rat.ofScientific

/-- JS `Math.round`: `Math.round(x) = ⌊x + 0.5⌋`. -/
def jsRound (x : ℚ) : ℤ := ⌊x + 1/2⌋

-- ───────────────────────────────────────────────────────────────────────────
-- crisisEngine.ts — TelemetryPacket, calculateLiveRisk, computeSensitivity
-- ───────────────────────────────────────────────────────────────────────────

/-- crisisEngine.ts `TelemetryPacket`. -/
structure TelemetryPacket where
  rainfall : ℚ
  drainageCapacity : ℚ
  populationDensity : ℚ
  socialSpike : ℚ

/-- crisisEngine.ts `calculateLiveRisk` (lines 113-122). -/
def calculateLiveRisk (telemetry : TelemetryPacket) : ℤ :=
  let normalizedRainfall := min (telemetry.rainfall / 150) 1
  let drainageInverse := 1 - telemetry.drainageCapacity
  let risk :=
    normalizedRainfall * 0.4 +
    drainageInverse * 0.2 +
    telemetry.populationDensity * 0.2 +
    telemetry.socialSpike * 0.2
  jsRound (max 0 (min 100 (risk * 100)))

/-- crisisEngine.ts `SensitivityBreakdown` (the four integer percentages). -/
structure SensitivityBreakdown where
  rainfallImpact : ℤ
  drainageImpact : ℤ
  populationImpact : ℤ
  socialImpact : ℤ
deriving DecidableEq

/-- The four raw weighted terms of `computeSensitivity` (crisisEngine.ts
lines 126-133), as a 4-tuple (rainfall, drainage, population, social). -/
def sensitivityRaw (telemetry : TelemetryPacket) : ℚ × ℚ × ℚ × ℚ :=
  let normalizedRainfall := min (telemetry.rainfall / 150) 1
  let drainageInverse := 1 - telemetry.drainageCapacity
  (normalizedRainfall * 0.4,
   drainageInverse * 0.2,
   telemetry.populationDensity * 0.2,
   telemetry.socialSpike * 0.2)

/-- The `total` of `computeSensitivity` (crisisEngine.ts line 134). -/
def sensitivityTotal (telemetry : TelemetryPacket) : ℚ :=
  (sensitivityRaw telemetry).1 + (sensitivityRaw telemetry).2.1 +
  (sensitivityRaw telemetry).2.2.1 + (sensitivityRaw telemetry).2.2.2

/-- crisisEngine.ts `computeSensitivity` (lines 125-141). -/
def computeSensitivity (telemetry : TelemetryPacket) : SensitivityBreakdown :=
  let raw := sensitivityRaw telemetry
  let total := sensitivityTotal telemetry
  { rainfallImpact := if total > 0 then jsRound (raw.1 / total * 100) else 0
    drainageImpact := if total > 0 then jsRound (raw.2.1 / total * 100) else 0
    populationImpact := if total > 0 then jsRound (raw.2.2.1 / total * 100) else 0
    socialImpact := if total > 0 then jsRound (raw.2.2.2 / total * 100) else 0 }

/-- Sum of the four percentages returned by `computeSensitivity`. -/
def sensitivitySum (telemetry : TelemetryPacket) : ℤ :=
  (computeSensitivity telemetry).rainfallImpact +
  (computeSensitivity telemetry).drainageImpact +
  (computeSensitivity telemetry).populationImpact +
  (computeSensitivity telemetry).socialImpact

-- ───────────────────────────────────────────────────────────────────────────
-- negotiationEngine.ts — checkFeasibility + runDynamicNegotiation
-- ───────────────────────────────────────────────────────────────────────────

/-- negotiationEngine.ts `ResourceInventory`. -/
structure ResourceInventory where
  pumpUnits : ℚ
  evacuationVehicles : ℚ
  maxSimultaneousZones : ℚ
  shelterCapacity : ℚ
  medicalTeams : ℚ
deriving DecidableEq

/-- `EvacuationDemand.priority` values. -/
inductive Priority where
  | immediate
  | staggered
deriving DecidableEq

/-- negotiationEngine.ts `EvacuationDemand`. -/
structure EvacuationDemand where
  zones : List String
  totalPopulation : ℚ
  priority : Priority
  pumpsRequested : ℚ
deriving DecidableEq

/-- Tags for the four human-readable issue strings pushed by
`checkFeasibility`; the source pushes formatted strings, and its logic only
ever inspects `issues.length`, so we record which constraint produced each
entry rather than the rendered text. -/
inductive FeasibilityIssue where
  | zoneOverflow
  | pumpDeficit
  | fleetConstraint
  | shelterOverflow
deriving DecidableEq

/-- negotiationEngine.ts `Partial<EvacuationDemand>` as used for
`suggestedFix`: only the `priority` and `pumpsRequested` fields are ever
assigned. -/
structure SuggestedFix where
  priority : Option Priority
  pumpsRequested : Option ℚ
deriving DecidableEq

/-- Result record of `checkFeasibility`.  In the source the feasible branch
returns no `suggestedFix` key (it is `undefined`), hence the `Option`. -/
structure FeasibilityCheck where
  feasible : Bool
  issues : List FeasibilityIssue
  suggestedFix : Option SuggestedFix
deriving DecidableEq

/-- negotiationEngine.ts `checkFeasibility` (lines 41-89).  The four
constraint tests and the two `suggestedFix` assignments are taken verbatim;
`suggestedFix.priority` is written (always with value `staggered`) by both
the zone-overflow and the fleet-constraint branches, which the disjunction
below reproduces. -/
def checkFeasibility (demand : EvacuationDemand) (inventory : ResourceInventory) :
    FeasibilityCheck :=
  let zoneIssue := (demand.zones.length : ℚ) > inventory.maxSimultaneousZones
  let pumpIssue := demand.pumpsRequested > inventory.pumpUnits
  let vehicleCapacity := inventory.evacuationVehicles * 55
  let fleetIssue := demand.totalPopulation > vehicleCapacity ∧
      demand.priority = Priority.immediate
  let shelterIssue := demand.totalPopulation > inventory.shelterCapacity
  let issues : List FeasibilityIssue :=
    (if zoneIssue then [FeasibilityIssue.zoneOverflow] else []) ++
    (if pumpIssue then [FeasibilityIssue.pumpDeficit] else []) ++
    (if fleetIssue then [FeasibilityIssue.fleetConstraint] else []) ++
    (if shelterIssue then [FeasibilityIssue.shelterOverflow] else [])
  let suggestedFix : SuggestedFix :=
    { priority := if zoneIssue ∨ fleetIssue then some Priority.staggered else none
      pumpsRequested := if pumpIssue then some inventory.pumpUnits else none }
  if issues.isEmpty then
    { feasible := true, issues := [], suggestedFix := none }
  else
    { feasible := false, issues := issues, suggestedFix := some suggestedFix }

/-- The Response agent's adaptation step (negotiationEngine.ts lines
209-218): apply `suggestedFix.priority` if present, then
`suggestedFix.pumpsRequested` if present. -/
def applySuggestedFix (demand : EvacuationDemand) (fix : SuggestedFix) :
    EvacuationDemand :=
  let withPriority :=
    match fix.priority with
    | some p => { demand with priority := p }
    | none => demand
  match fix.pumpsRequested with
  | some p => { withPriority with pumpsRequested := p }
  | none => withPriority

/-- Outcome of `runDynamicNegotiation`.  `timedOut` mirrors the
`timedOut: true` flag of the fallback `NEGOTIATION_RESOLVED` event;
`fixApplied` records whether the adaptation branch (lines 209-218) ran in
at least one round. -/
structure NegotiationResult where
  finalDemand : EvacuationDemand
  rounds : ℕ
  timedOut : Bool
  fixApplied : Bool
deriving DecidableEq

/-- The `while (round < maxRounds)` loop of `runDynamicNegotiation`
(negotiationEngine.ts lines 135-221), as a recursion on the remaining
number of rounds.  `roundsDone` is the source's `round` counter. -/
def negotiationLoop (inventory : ResourceInventory) :
    EvacuationDemand → ℕ → ℕ → Bool → NegotiationResult
  | demand, 0, roundsDone, fixApplied =>
    -- fallback: max rounds exceeded (lines 223-234)
    { finalDemand := demand, rounds := roundsDone, timedOut := true,
      fixApplied := fixApplied }
  | demand, fuel + 1, roundsDone, fixApplied =>
    let check := checkFeasibility demand inventory
    if check.feasible then
      -- consensus reached (lines 186-206)
      { finalDemand := demand, rounds := roundsDone + 1, timedOut := false,
        fixApplied := fixApplied }
    else
      -- adapt demand based on the Resource agent's constraints
      let adapted :=
        match check.suggestedFix with
        | some fix => applySuggestedFix demand fix
        | none => demand
      negotiationLoop inventory adapted fuel (roundsDone + 1) true

/-- negotiationEngine.ts `runDynamicNegotiation` (lines 113-235), stripped
of its logging/pacing side effects (spec §9: the invariants apply to the
pure functions). -/
def runDynamicNegotiation (initialDemand : EvacuationDemand)
    (inventory : ResourceInventory) (maxRounds : ℕ) : NegotiationResult :=
  negotiationLoop inventory initialDemand maxRounds 0 false

/-- The evacuation demand issued by the orchestrator's main run
(crisisEngine.ts lines 471-476). -/
def mainRunDemand : EvacuationDemand :=
  { zones := ["Ward 12 - River Delta", "North Bridge Corridor"]
    totalPopulation := 67000
    priority := Priority.immediate
    pumpsRequested := 5 }

/-- The inventory reported by the Resource agent on the main run
(crisisEngine.ts lines 358-364). -/
def mainRunInventory : ResourceInventory :=
  { pumpUnits := 3
    evacuationVehicles := 42
    maxSimultaneousZones := 1
    shelterCapacity := 18000
    medicalTeams := 6 }

/-- The shelter-capacity condition is the only violated constraint of
`checkFeasibility`. -/
def shelterOnlyViolation (demand : EvacuationDemand)
    (inventory : ResourceInventory) : Prop :=
  (demand.zones.length : ℚ) ≤ inventory.maxSimultaneousZones ∧
  demand.pumpsRequested ≤ inventory.pumpUnits ∧
  (demand.totalPopulation ≤ inventory.evacuationVehicles * 55 ∨
    demand.priority = Priority.staggered) ∧
  demand.totalPopulation > inventory.shelterCapacity

instance (demand : EvacuationDemand) (inventory : ResourceInventory) :
    Decidable (shelterOnlyViolation demand inventory) := by
  unfold shelterOnlyViolation; infer_instance

-- ───────────────────────────────────────────────────────────────────────────
-- floodGrid.ts — grid cells and the cellular-automaton step
-- ───────────────────────────────────────────────────────────────────────────

/-- floodGrid.ts `GRID_COLS`. -/
def GRID_COLS : ℕ := 20

/-- floodGrid.ts `GRID_ROWS`. -/
def GRID_ROWS : ℕ := 16

/-- floodGrid.ts `GridCell`. -/
structure GridCell where
  row : ℕ
  col : ℕ
  altitude : ℚ
  drainageRate : ℚ
  waterLevel : ℚ
  isRiver : Bool
  zoneId : Option String
deriving DecidableEq

instance : Inhabited GridCell :=
  ⟨{ row := 0, col := 0, altitude := 0, drainageRate := 0, waterLevel := 0,
     isRiver := false, zoneId := none }⟩

/-- floodGrid.ts `FloodGrid = GridCell[][]`, row major. -/
abbrev FloodGrid := List (List GridCell)

/-- Replace the element at one index of a list (out-of-range is a no-op,
which never happens on the in-bounds indices used below). -/
def modifyAt {α : Type} (f : α → α) : ℕ → List α → List α
  | _, [] => []
  | 0, a :: as => f a :: as
  | n + 1, a :: as => a :: modifyAt f n as

/-- Array read `grid[row][col]`. -/
def getCell (grid : FloodGrid) (row col : ℕ) : GridCell :=
  (List.getD grid row []).getD col default

/-- In-place update of `grid[row][col]`. -/
def modifyCell (grid : FloodGrid) (row col : ℕ) (f : GridCell → GridCell) :
    FloodGrid :=
  modifyAt (fun r => modifyAt f col r) row grid

/-- floodGrid.ts `SimulationParams`. -/
structure SimulationParams where
  rainfall : ℚ
  drainageCapacity : ℚ

/-- floodGrid.ts `getNeighbors` (lines 233-240): the Von Neumann
neighborhood, reading the passed-in grid. -/
def getNeighbors (grid : FloodGrid) (row col : ℕ) : List GridCell :=
  (if row > 0 then [getCell grid (row - 1) col] else []) ++
  (if row < GRID_ROWS - 1 then [getCell grid (row + 1) col] else []) ++
  (if col > 0 then [getCell grid row (col - 1)] else []) ++
  (if col < GRID_COLS - 1 then [getCell grid row (col + 1)] else [])

/-- Loop body of `stepFloodGrid` for one cell (floodGrid.ts lines 119-155):
rainfall input, pairwise flow with the four neighbors (out-flows write
directly into `next[n.row][n.col]`), drainage, and the final clamped
assignment to `next[row][col]`. -/
def stepCell (grid : FloodGrid) (rainfallInput globalDrainMod deltaTime : ℚ)
    (next : FloodGrid) (row col : ℕ) : FloodGrid :=
  let cell := getCell grid row col
  let water0 :=
    cell.waterLevel +
      (if cell.isRiver then rainfallInput * 1.5 else rainfallInput * 0.3)
  let flowed := (getNeighbors grid row col).foldl
    (fun (st : ℚ × FloodGrid) n =>
      let altDiff := cell.altitude - n.altitude
      if altDiff > 0 ∧ cell.waterLevel > 0.05 then
        let flowRate := min (0.02 * (altDiff / 100) * deltaTime) (st.1 * 0.25)
        (st.1 - flowRate,
         modifyCell st.2 n.row n.col
           (fun c => { c with waterLevel := c.waterLevel + flowRate }))
      else if altDiff < 0 ∧ n.waterLevel > 0.05 then
        let flowRate :=
          min (0.02 * ((-altDiff) / 100) * deltaTime) (n.waterLevel * 0.25)
        (st.1 + flowRate, st.2)
      else st)
    (water0, next)
  let water1 := flowed.1 - cell.drainageRate * globalDrainMod * deltaTime
  modifyCell flowed.2 row col
    (fun c => { c with waterLevel := max 0 (min 1 water1) })

/-- floodGrid.ts `stepFloodGrid` (lines 102-160).  The `next` grid starts
as a copy of the input (`grid.map(row => row.map(cell => ({...cell})))`;
object allocation is modelled separately in the heap semantics below) and
the cells are processed in row-major order. -/
def stepFloodGrid (grid : FloodGrid) (params : SimulationParams)
    (deltaTime : ℚ) : FloodGrid :=
  let next : FloodGrid := grid.map (fun row => row.map (fun cell => cell))
  let rainfallInput := min (params.rainfall / 150) 1 * 0.08 * deltaTime
  let globalDrainMod := params.drainageCapacity
  (List.range GRID_ROWS).foldl
    (fun next row =>
      (List.range GRID_COLS).foldl
        (fun next col => stepCell grid rainfallInput globalDrainMod deltaTime next row col)
        next)
    next

/-- A plain (non-river) cell with given position, altitude and water level
and zero drainage, used for concrete test grids. -/
def plainCell (row col : ℕ) (altitude waterLevel : ℚ) : GridCell :=
  { row := row, col := col, altitude := altitude, drainageRate := 0,
    waterLevel := waterLevel, isRiver := false, zoneId := none }

/-- A 16×20 grid whose cells all carry water levels in [0,1]: cell (0,0)
sits low (altitude 5) holding full water 1, its neighbor (1,0) sits high
(altitude 95) holding full water 1, and every other cell is dry at
altitude 5. -/
def overflowGrid : FloodGrid :=
  (List.range GRID_ROWS).map (fun row =>
    (List.range GRID_COLS).map (fun col =>
      if row = 0 ∧ col = 0 then plainCell row col 5 1
      else if row = 1 ∧ col = 0 then plainCell row col 95 1
      else plainCell row col 5 0))

-- ───────────────────────────────────────────────────────────────────────────
-- graphTwin.ts — infrastructure graph, flood step, Dijkstra routing
-- ───────────────────────────────────────────────────────────────────────────

/-- graphTwin.ts `GraphNode`. -/
structure GraphNode where
  id : String
  name : String
  waterLevel : ℚ
  population : ℚ
  isFlooded : Bool
  elevation : ℚ
deriving DecidableEq

/-- graphTwin.ts edge `type` field. -/
inductive EdgeType where
  | road
  | bridge
  | highway
deriving DecidableEq

/-- graphTwin.ts `GraphEdge` (`from` and `to` are Lean keywords, hence `from_` / `to_`). -/
structure GraphEdge where
  from_ : String
  to_ : String
  weight : ℚ
  capacity : ℚ
  type : EdgeType
  blocked : Bool
  permeability : ℚ
deriving DecidableEq

instance : Inhabited GraphEdge :=
  ⟨{ from_ := "", to_ := "", weight := 0, capacity := 0, type := EdgeType.road,
     blocked := false, permeability := 0 }⟩

/-- graphTwin.ts `EvacuationRoute` (`capacity` is `Infinity`, modelled as
`none`, when the path contains no matching edge). -/
structure EvacuationRoute where
  path : List String
  totalCost : ℚ
  bottleneck : String
  capacity : Option ℚ

/-- The mutable state of a graphTwin.ts `InfrastructureGraph` instance. -/
structure InfrastructureGraph where
  nodes : List GraphNode
  edges : List GraphEdge

/-- Build a graph node (helper for transcribing `defaultNodes`). -/
def mkNode (id name : String) (population elevation : ℚ) : GraphNode :=
  { id := id, name := name, waterLevel := 0, population := population,
    isFlooded := false, elevation := elevation }

/-- graphTwin.ts `defaultNodes` (lines 35-46). -/
def defaultNodes : List GraphNode :=
  [ mkNode "zone-1" "Ward 12 - River Delta" 45000 12,
    mkNode "zone-2" "Ward 7 - Industrial Hub" 32000 28,
    mkNode "zone-3" "Central Business District" 78000 35,
    mkNode "zone-4" "North Bridge Corridor" 22000 18,
    mkNode "zone-5" "South Residential Block" 55000 42,
    mkNode "zone-6" "East Power Grid Station" 18000 30,
    mkNode "zone-7" "West Water Treatment" 12000 15,
    mkNode "zone-8" "Harbor District" 28000 8,
    mkNode "shelter-A" "Central Shelter A" 0 50,
    mkNode "shelter-B" "South Shelter B" 0 55 ]

/-- Build an unblocked graph edge (helper for transcribing `defaultEdges`). -/
def mkEdge (from_ to_ : String) (weight capacity : ℚ) (type : EdgeType)
    (permeability : ℚ) : GraphEdge :=
  { from_ := from_, to_ := to_, weight := weight, capacity := capacity,
    type := type, blocked := false, permeability := permeability }

/-- graphTwin.ts `defaultEdges` (lines 48-70). -/
def defaultEdges : List GraphEdge :=
  [ mkEdge "zone-1" "zone-4" 8 2000 EdgeType.road 0.7,
    mkEdge "zone-4" "zone-3" 5 3000 EdgeType.bridge 0.3,
    mkEdge "zone-1" "zone-7" 12 1500 EdgeType.road 0.8,
    mkEdge "zone-3" "zone-6" 6 2500 EdgeType.road 0.5,
    mkEdge "zone-3" "zone-5" 7 3000 EdgeType.highway 0.4,
    mkEdge "zone-2" "zone-3" 4 2000 EdgeType.road 0.5,
    mkEdge "zone-6" "zone-8" 9 1800 EdgeType.road 0.6,
    mkEdge "zone-7" "zone-8" 15 1000 EdgeType.road 0.9,
    mkEdge "zone-5" "zone-8" 10 2200 EdgeType.road 0.5,
    mkEdge "zone-3" "shelter-A" 3 4000 EdgeType.highway 0.2,
    mkEdge "zone-5" "shelter-B" 4 3500 EdgeType.highway 0.2,
    mkEdge "zone-6" "shelter-A" 7 2000 EdgeType.road 0.3,
    mkEdge "zone-1" "zone-3" 10 1800 EdgeType.road 0.6,
    mkEdge "zone-4" "shelter-A" 12 1500 EdgeType.road 0.4,
    mkEdge "zone-4" "zone-1" 8 2000 EdgeType.road 0.7,
    mkEdge "zone-3" "zone-4" 5 3000 EdgeType.bridge 0.3,
    mkEdge "zone-3" "zone-2" 4 2000 EdgeType.road 0.5,
    mkEdge "zone-3" "zone-1" 10 1800 EdgeType.road 0.6 ]

/-- graphTwin.ts `constructor` / `reset` (lines 76-79, 216-219): both
install fresh copies of the default topology. -/
def InfrastructureGraph.reset (_g : InfrastructureGraph) : InfrastructureGraph :=
  { nodes := defaultNodes, edges := defaultEdges }

instance : Inhabited GraphNode := ⟨mkNode "" "" 0 0⟩

/-- One iteration of the node loop of `simulateFloodStep` (graphTwin.ts
lines 85-101): raise node `i`'s water with the elevation factor, recompute
`isFlooded`, then push water along its unblocked outgoing edges into the
(live, already partially updated) node array. -/
def floodNodeStep (edges : List GraphEdge) (rainfallFactor : ℚ)
    (nodes : List GraphNode) (i : ℕ) : List GraphNode :=
  let node := nodes.getD i default
  let elevationFactor := 1 - node.elevation / 60
  let waterIncrease := rainfallFactor * elevationFactor * 0.05
  let newLevel := min 1 (max 0 (node.waterLevel + waterIncrease))
  let nodes1 := modifyAt
    (fun n => { n with waterLevel := newLevel, isFlooded := newLevel > 0.4 })
    i nodes
  let outEdges := edges.filter (fun e => e.from_ == node.id && !e.blocked)
  outEdges.foldl
    (fun ns e =>
      match ns.findIdx? (fun n => n.id == e.to_) with
      | some j =>
        modifyAt
          (fun t =>
            { t with waterLevel := min 1 (t.waterLevel + newLevel * e.permeability * 0.02) })
          j ns
      | none => ns)
    nodes1

/-- The edge-blocking pass of `simulateFloodStep` (graphTwin.ts lines
104-114): bridges block once either endpoint exceeds 0.5, any edge blocks
once either endpoint exceeds 0.7; nothing ever unblocks. -/
def blockEdges (nodes : List GraphNode) (edges : List GraphEdge) :
    List GraphEdge :=
  edges.map (fun e =>
    match nodes.find? (fun n => n.id == e.from_),
        nodes.find? (fun n => n.id == e.to_) with
    | some fromNode, some toNode =>
      if e.type = EdgeType.bridge ∧
          (fromNode.waterLevel > 0.5 ∨ toNode.waterLevel > 0.5) then
        { e with blocked := true }
      else if fromNode.waterLevel > 0.7 ∨ toNode.waterLevel > 0.7 then
        { e with blocked := true }
      else e
    | _, _ => e)

/-- graphTwin.ts `simulateFloodStep` (lines 82-115). -/
def InfrastructureGraph.simulateFloodStep (g : InfrastructureGraph)
    (rainfall : ℚ) : InfrastructureGraph :=
  let rainfallFactor := min (rainfall / 150) 1
  let nodes' := (List.range g.nodes.length).foldl
    (floodNodeStep g.edges rainfallFactor) g.nodes
  { nodes := nodes', edges := blockEdges nodes' g.edges }

/-- One entry of the Dijkstra priority queue. -/
structure QueueEntry where
  id : String
  dist : ℚ

/-- Stable ascending sort of the queue by distance, modelling
`queue.sort((a, b) => a.dist - b.dist)` (JS array sort is stable). -/
def insertQueue (x : QueueEntry) : List QueueEntry → List QueueEntry
  | [] => [x]
  | y :: ys => if x.dist < y.dist then x :: y :: ys else y :: insertQueue x ys

/-- Stable sort driver for `insertQueue`. -/
def sortQueue (q : List QueueEntry) : List QueueEntry :=
  q.foldr insertQueue []

/-- Association-list update for the `distances` / `previous` records. -/
def setAssoc {α : Type} (key : String) (value : α) :
    List (String × α) → List (String × α)
  | [] => [(key, value)]
  | (k, v) :: rest =>
    if k == key then (k, value) :: rest else (k, v) :: setAssoc key value rest

/-- Association-list lookup; `none` plays the role of the `Infinity`
initialization of `distances` (and of the `null` entries of `previous`). -/
def getAssoc {α : Type} (key : String) (l : List (String × α)) : Option α :=
  (l.find? (fun p => p.1 == key)).map (fun p => p.2)

/-- Relaxation of the outgoing edges of `current` (graphTwin.ts lines
140-154), folding over the unblocked out-edges and skipping flooded
targets; distances absent from the record stand for `Infinity`. -/
def relaxEdges (g : InfrastructureGraph) (current : QueueEntry)
    (st : List (String × ℚ) × List (String × String) × List QueueEntry) :
    List (String × ℚ) × List (String × String) × List QueueEntry :=
  let outEdges := g.edges.filter (fun e => e.from_ == current.id && !e.blocked)
  outEdges.foldl
    (fun (st : List (String × ℚ) × List (String × String) × List QueueEntry) e =>
      match g.nodes.find? (fun n => n.id == e.to_) with
      | none => st
      | some targetNode =>
        if targetNode.isFlooded then st
        else
          let floodPenalty := targetNode.waterLevel * 20
          let newDist := ((getAssoc current.id st.1).getD 0) + e.weight + floodPenalty
          let relaxed : List (String × ℚ) × List (String × String) × List QueueEntry :=
            (setAssoc e.to_ newDist st.1,
             setAssoc e.to_ current.id st.2.1,
             st.2.2 ++ [({ id := e.to_, dist := newDist } : QueueEntry)])
          match getAssoc e.to_ st.1 with
          | none => relaxed
          | some d => if newDist < d then relaxed else st)
    st

/-- The `while (queue.length > 0)` loop of `dijkstra` (graphTwin.ts lines
131-155), with explicit fuel (the source loop terminates because every
queue entry stems from a strict relaxation). -/
def dijkstraLoop (g : InfrastructureGraph) (endId : String) :
    ℕ → List (String × ℚ) → List (String × String) → List String →
    List QueueEntry → List (String × ℚ) × List (String × String)
  | 0, dist, prev, _, _ => (dist, prev)
  | fuel + 1, dist, prev, visited, queue =>
    match sortQueue queue with
    | [] => (dist, prev)
    | current :: rest =>
      if current.id ∈ visited then
        dijkstraLoop g endId fuel dist prev visited rest
      else if current.id = endId then (dist, prev)
      else
        let st := relaxEdges g current (dist, prev, rest)
        dijkstraLoop g endId fuel st.1 st.2.1 (current.id :: visited) st.2.2

/-- Path reconstruction (graphTwin.ts lines 159-165), following the
`previous` record back from `endId`. -/
def rebuildPath (prev : List (String × String)) : ℕ → String → List String
  | 0, current => [current]
  | fuel + 1, current =>
    match getAssoc current prev with
    | some p => rebuildPath prev fuel p ++ [current]
    | none => [current]

/-- Bottleneck search (graphTwin.ts lines 167-176): the minimum-capacity
edge along the path.  `none` models the `Infinity` start value of
`minCapacity`. -/
def findBottleneck (edges : List GraphEdge) :
    List String → Option ℚ → String → Option ℚ × String
  | a :: b :: rest, minCapacity, bottleneck =>
    match edges.find? (fun e => e.from_ == a && e.to_ == b) with
    | some e =>
      let lower : Bool :=
        match minCapacity with
        | none => true
        | some m => decide (e.capacity < m)
      if lower then
        findBottleneck edges (b :: rest) (some e.capacity) (a ++ "→" ++ b)
      else findBottleneck edges (b :: rest) minCapacity bottleneck
    | none => findBottleneck edges (b :: rest) minCapacity bottleneck
  | _, minCapacity, bottleneck => (minCapacity, bottleneck)

/-- graphTwin.ts `dijkstra` (lines 118-184).  A distance absent from the
record models `Infinity`; the fuel covers the worst-case queue traffic.
`totalCost` is rounded to one decimal as in the source.  The method reads
`this.nodes` / `this.edges` and performs no writes, hence its model is a
pure function of the graph. -/
def InfrastructureGraph.dijkstra (g : InfrastructureGraph)
    (startId endId : String) : Option EvacuationRoute :=
  let fuel := (g.nodes.length + 1) * (g.edges.length + 1) + 1
  let res := dijkstraLoop g endId fuel [(startId, 0)] [] [] [{ id := startId, dist := 0 }]
  match getAssoc endId res.1 with
  | none => none
  | some d =>
    let path := rebuildPath res.2 g.nodes.length endId
    let bn := findBottleneck g.edges path none ""
    some { path := path, totalCost := (jsRound (d * 10) : ℚ) / 10,
           bottleneck := bn.2, capacity := bn.1 }

/-- graphTwin.ts `findEvacuationRoutes` (lines 187-203): cheapest route
from each zone to any shelter node; also read-only on the graph. -/
def InfrastructureGraph.findEvacuationRoutes (g : InfrastructureGraph)
    (zoneIds : List String) : List (String × Option EvacuationRoute) :=
  let shelters := g.nodes.filter (fun n => n.id.startsWith "shelter")
  zoneIds.map (fun zoneId =>
    let bestRoute := shelters.foldl
      (fun best shelter =>
        match g.dijkstra zoneId shelter.id with
        | none => best
        | some route =>
          match best with
          | none => some route
          | some b => if route.totalCost < b.totalCost then some route else best)
      none
    (zoneId, bestRoute))

-- ───────────────────────────────────────────────────────────────────────────
-- seededRng.ts — Mulberry32 PRNG; crisisEngine.ts runMonteCarlo
-- ───────────────────────────────────────────────────────────────────────────

/-- JS truncation toward zero (the integer part of `ToInt32`). -/
def jsTruncate (q : ℚ) : ℤ :=
  if 0 ≤ q then ⌊q⌋ else -⌊-q⌋

/-- The unsigned 32-bit pattern of a JS number after `| 0` coercion
(`ToInt32`); signed values share the same bit pattern, and all the 32-bit
operations below act on patterns. -/
def jsToUint32 (q : ℚ) : ℕ :=
  ((jsTruncate q) % (4294967296 : ℤ)).toNat

/-- `Math.imul`: 32-bit multiplication (as a bit pattern). -/
def imul32 (a b : ℕ) : ℕ := (a * b) % 4294967296

/-- One draw of the Mulberry32 generator (seededRng.ts lines 438-446),
acting on the closure's mutable `seed` as a 32-bit pattern and returning
the new state together with the output in `[0, 1)`.  JS `x >>> k` is
division by `2 ^ k` on the pattern, `| 0` is the identity on patterns, and
the intermediate float additions are exact below `2 ^ 53`, so working
modulo `2 ^ 32` is faithful. -/
def mulberryNext (state : ℕ) : ℕ × ℚ :=
  let seed := (state + 0x6D2B79F5) % 4294967296
  let t1 := imul32 (seed ^^^ (seed >>> 15)) (1 ||| seed)
  let t2 := ((t1 + imul32 (t1 ^^^ (t1 >>> 7)) (61 ||| t1)) % 4294967296) ^^^ t1
  (seed, ((t2 ^^^ (t2 >>> 14) : ℕ) : ℚ) / 4294967296)

/-- The mutable state of a seededRng.ts `SeededRNG` instance: the stored
seed, the Mulberry32 closure state, and the call counter. -/
structure SeededRNG where
  seed : ℚ
  state : ℕ
  callCount : ℕ

/-- seededRng.ts `constructor(seed)` (with an explicit seed). -/
def mkSeededRNG (seed : ℚ) : SeededRNG :=
  { seed := seed, state := jsToUint32 seed, callCount := 0 }

/-- seededRng.ts `reseed` (lines 487-491): overwrites the stored seed,
replaces the generator closure, and zeroes the call counter — no component
of the previous state survives. -/
def SeededRNG.reseed (_r : SeededRNG) (seed : ℚ) : SeededRNG :=
  mkSeededRNG seed

/-- seededRng.ts `random()`: one Mulberry32 draw plus the call-count
increment.  Returns the drawn value and the updated generator. -/
def SeededRNG.random (r : SeededRNG) : ℚ × SeededRNG :=
  let next := mulberryNext r.state
  (next.2, { r with state := next.1, callCount := r.callCount + 1 })

/-- seededRng.ts `range(min, max)`. -/
def SeededRNG.range (r : SeededRNG) (lo hi : ℚ) : ℚ × SeededRNG :=
  let draw := r.random
  (lo + draw.1 * (hi - lo), draw.2)

/-- Deterministic interpretations of the JS `Math` host functions used by
Box–Muller (`Math.sqrt`, `Math.log`, `Math.cos`, `Math.PI`).  Their exact
values are host floating point and are irrelevant to the reproducibility
claims, which hold for every interpretation. -/
structure JsMath where
  sqrt : ℚ → ℚ
  log : ℚ → ℚ
  cos : ℚ → ℚ
  pi : ℚ

/-- seededRng.ts `normal(mean, stdDev)` (Box–Muller, lines 475-480);
`u1 || 1e-10` guards the zero draw. -/
def SeededRNG.normal (r : SeededRNG) (jm : JsMath) (mean stdDev : ℚ) :
    ℚ × SeededRNG :=
  let draw1 := r.random
  let draw2 := draw1.2.random
  let u1 := draw1.1
  let u2 := draw2.1
  let z := jm.sqrt (-2 * jm.log (if u1 = 0 then 1e-10 else u1)) *
    jm.cos (2 * jm.pi * u2)
  (mean + z * stdDev, draw2.2)

/-- crisisEngine.ts / useSystemStore `MonteCarloResult`. -/
structure MonteCarloResult where
  mean : ℤ
  stdDev : ℤ
  ci95 : ℤ × ℤ
  worstCase : ℤ
  scenariosRun : ℕ
  zoneBreakdown : List (String × ℤ)
deriving DecidableEq

/-- Ascending insertion used to model `results.sort((a, b) => a - b)`. -/
def insertAsc (x : ℚ) : List ℚ → List ℚ
  | [] => [x]
  | y :: ys => if x ≤ y then x :: y :: ys else y :: insertAsc x ys

/-- Ascending numeric sort (the values, hence the sorted array, do not
depend on how the JS engine breaks ties between equal numbers). -/
def sortAsc (l : List ℚ) : List ℚ :=
  l.foldr insertAsc []

/-- One iteration of the `runMonteCarlo` sampling loop (crisisEngine.ts
lines 153-165): the four perturbed telemetry draws (in source order), the
risk sample, and the three zone accumulators. -/
def monteCarloIteration (jm : JsMath) (baseTelemetry : TelemetryPacket)
    (st : SeededRNG × List ℚ × ℚ × ℚ × ℚ) : SeededRNG × List ℚ × ℚ × ℚ × ℚ :=
  let d1 := st.1.normal jm baseTelemetry.rainfall (baseTelemetry.rainfall * 0.15)
  let d2 := d1.2.normal jm baseTelemetry.drainageCapacity 0.08
  let d3 := d2.2.normal jm baseTelemetry.populationDensity 0.05
  let d4 := d3.2.normal jm baseTelemetry.socialSpike 0.1
  let variedTelemetry : TelemetryPacket :=
    { rainfall := max 0 d1.1
      drainageCapacity := max 0 (min 1 d2.1)
      populationDensity := max 0 (min 1 d3.1)
      socialSpike := max 0 (min 1 d4.1) }
  let risk := (calculateLiveRisk variedTelemetry : ℚ) / 100
  (d4.2, st.2.1 ++ [risk], st.2.2.1 + risk * 1.1, st.2.2.2.1 + risk * 0.95,
   st.2.2.2.2 + risk * 0.85)

/-- crisisEngine.ts `runMonteCarlo` (lines 144-186).  The shared PRNG is
threaded explicitly: the function receives the current global generator,
reseeds it first (`seededRng.reseed(seed)`), and returns the result
together with the generator state it leaves behind.  (For `iterations = 0`
the JS statistics are `NaN`; in ℚ the divisions yield 0 — no claim touches
that case.) -/
def runMonteCarlo (jm : JsMath) (rng : SeededRNG)
    (baseTelemetry : TelemetryPacket) (iterations : ℕ) (seed : ℚ) :
    MonteCarloResult × SeededRNG :=
  let r0 := rng.reseed seed
  let looped := (List.range iterations).foldl
    (fun st _ => monteCarloIteration jm baseTelemetry st)
    (r0, ([] : List ℚ), (0 : ℚ), (0 : ℚ), (0 : ℚ))
  let results := looped.2.1
  let sorted := sortAsc results
  let len : ℚ := (results.length : ℚ)
  let mean := results.foldl (fun a b => a + b) 0 / len
  let variance := results.foldl (fun a b => a + (b - mean) ^ 2) 0 / len
  let stdDev := jm.sqrt variance
  let ci95Low := sorted.getD (⌊(iterations : ℚ) * 0.025⌋).toNat 0
  let ci95High := sorted.getD (⌊(iterations : ℚ) * 0.975⌋).toNat 0
  let worstCase := sorted.getD (⌊(iterations : ℚ) * 0.99⌋).toNat 0
  ({ mean := jsRound (mean * 100)
     stdDev := jsRound (stdDev * 100)
     ci95 := (jsRound (ci95Low * 100), jsRound (ci95High * 100))
     worstCase := jsRound (worstCase * 100)
     scenariosRun := iterations
     zoneBreakdown :=
       [("Ward 12 - River Delta", jsRound (looped.2.2.1 / (iterations : ℚ) * 100)),
        ("North Bridge Corridor", jsRound (looped.2.2.2.1 / (iterations : ℚ) * 100)),
        ("West Water Treatment", jsRound (looped.2.2.2.2 / (iterations : ℚ) * 100))] },
   looped.1)

-- ───────────────────────────────────────────────────────────────────────────
-- crisisEngine.ts — crisis state machine (`VALID_TRANSITIONS`, `transition`)
-- ───────────────────────────────────────────────────────────────────────────

/-- useSystemStore `CrisisStatus`. -/
inductive CrisisStatus where
  | idle
  | detected
  | simulating
  | negotiating
  | mitigating
  | mitigated
  | resolved
deriving DecidableEq

/-- useSystemStore `AgentName` (the agents that may request transitions). -/
inductive AgentName where
  | Sentinel
  | Risk
  | Simulation
  | Response
  | Resource
  | Governance
deriving DecidableEq

/-- crisisEngine.ts `VALID_TRANSITIONS` (lines 57-65); every status is a
key, so the record lookup in `transition` never yields `undefined`. -/
def VALID_TRANSITIONS : CrisisStatus → List CrisisStatus
  | CrisisStatus.idle => [CrisisStatus.detected]
  | CrisisStatus.detected => [CrisisStatus.simulating]
  | CrisisStatus.simulating => [CrisisStatus.negotiating]
  | CrisisStatus.negotiating => [CrisisStatus.mitigating]
  | CrisisStatus.mitigating => [CrisisStatus.mitigated]
  | CrisisStatus.mitigated => [CrisisStatus.resolved]
  | CrisisStatus.resolved => [CrisisStatus.idle]

/-- The successor in the fixed chain
idle→detected→simulating→negotiating→mitigating→mitigated→resolved→idle. -/
def statusSuccessor : CrisisStatus → CrisisStatus
  | CrisisStatus.idle => CrisisStatus.detected
  | CrisisStatus.detected => CrisisStatus.simulating
  | CrisisStatus.simulating => CrisisStatus.negotiating
  | CrisisStatus.negotiating => CrisisStatus.mitigating
  | CrisisStatus.mitigating => CrisisStatus.mitigated
  | CrisisStatus.mitigated => CrisisStatus.resolved
  | CrisisStatus.resolved => CrisisStatus.idle

/-- The slice of the system store touched by `transition`:
the current status, the `addStateTransition` records, and the
invalid-transition warning log.  The store actions themselves
(`setCrisisStatus`, `addStateTransition`, `addLog`) are plain
unconditional field updates / list appends (useSystemStore); warnings are
recorded as (from, to) pairs since the claims never inspect message
text. -/
structure OrchestratorState where
  crisisStatus : CrisisStatus
  stateTransitions : List (CrisisStatus × CrisisStatus × AgentName)
  invalidWarnings : List (CrisisStatus × CrisisStatus)
deriving DecidableEq

/-- crisisEngine.ts `transition` (lines 67-79): look up the valid targets
of the current status; if the requested target is not among them, log a
warning and change nothing; otherwise record the state transition and set
the new status.  Total — no error is ever thrown. -/
def transition (s : OrchestratorState) (to_ : CrisisStatus)
    (agent : AgentName) : OrchestratorState :=
  let fromStatus := s.crisisStatus
  let valid := VALID_TRANSITIONS fromStatus
  if ¬ (to_ ∈ valid) then
    { s with invalidWarnings := s.invalidWarnings ++ [(fromStatus, to_)] }
  else
    { s with
      crisisStatus := to_
      stateTransitions := s.stateTransitions ++ [(fromStatus, to_, agent)] }

-- ───────────────────────────────────────────────────────────────────────────
-- floodGrid.ts `stepFloodGrid` — heap-level semantics for the
-- functional-update (frame) properties.  Cell objects live in an explicit
-- heap; `next` is allocated as fresh copies (`{ ...cell }`) and every write
-- of the loop targets a `next` address, exactly as in the source.
-- ───────────────────────────────────────────────────────────────────────────

/-- A heap of JS cell objects; addresses are list indices and allocation
appends. -/
abbrev CellHeap := List GridCell

/-- A grid of references: each entry is the heap address of a cell. -/
abbrev RefGrid := List (List ℕ)

/-- Read the cell object at a heap address. -/
def readCell (h : CellHeap) (a : ℕ) : GridCell :=
  List.getD h a default

/-- Mutate the cell object at a heap address in place. -/
def writeCell (h : CellHeap) (a : ℕ) (f : GridCell → GridCell) : CellHeap :=
  modifyAt f a h

/-- Address of `refs[row][col]` (never out of range on well-formed grids,
see `RefGridWF`). -/
def refAt (refs : RefGrid) (row col : ℕ) : ℕ :=
  (List.getD refs row []).getD col 0

/-- Allocation of one row of `next`: append a fresh copy of every
referenced cell (in order) and return the new heap together with the
addresses of the copies. -/
def allocRow (h : CellHeap) : List ℕ → CellHeap × List ℕ
  | [] => (h, [])
  | a :: rest =>
    let h' := h ++ [readCell h a]
    let r := allocRow h' rest
    (r.1, h.length :: r.2)

/-- The allocation `grid.map(row => row.map(cell => ({ ...cell })))` of
`stepFloodGrid`: append a fresh copy of every referenced cell to the heap
(row major) and return the references to the copies. -/
def allocNext (h : CellHeap) : RefGrid → CellHeap × RefGrid
  | [] => (h, [])
  | row :: rows =>
    let r1 := allocRow h row
    let r2 := allocNext r1.1 rows
    (r2.1, r1.2 :: r2.2)

/-- `getNeighbors` at heap level: the neighbor cell objects read through
the original grid's references. -/
def getNeighborsH (h : CellHeap) (g : RefGrid) (row col : ℕ) :
    List GridCell :=
  (if row > 0 then [readCell h (refAt g (row - 1) col)] else []) ++
  (if row < GRID_ROWS - 1 then [readCell h (refAt g (row + 1) col)] else []) ++
  (if col > 0 then [readCell h (refAt g row (col - 1))] else []) ++
  (if col < GRID_COLS - 1 then [readCell h (refAt g row (col + 1))] else [])

/-- One neighbor exchange of the per-cell loop at heap level (floodGrid.ts
lines 131-149): an out-flow writes `next[n.row][n.col]` in place, an
in-flow only adjusts the local running water. -/
def flowNeighbor (next : RefGrid) (cell : GridCell) (deltaTime : ℚ)
    (st : ℚ × CellHeap) (n : GridCell) : ℚ × CellHeap :=
  let altDiff := cell.altitude - n.altitude
  if altDiff > 0 ∧ cell.waterLevel > 0.05 then
    let flowRate := min (0.02 * (altDiff / 100) * deltaTime) (st.1 * 0.25)
    (st.1 - flowRate,
     writeCell st.2 (refAt next n.row n.col)
       (fun c => { c with waterLevel := c.waterLevel + flowRate }))
  else if altDiff < 0 ∧ n.waterLevel > 0.05 then
    let flowRate :=
      min (0.02 * ((-altDiff) / 100) * deltaTime) (n.waterLevel * 0.25)
    (st.1 + flowRate, st.2)
  else st

/-- The per-cell loop body of `stepFloodGrid` at heap level (floodGrid.ts
lines 119-155): reads go through the input grid's references `g`, the
out-flow increments write `next[n.row][n.col]`, and the final clamped
assignment writes `next[row][col]`. -/
def stepCellH (g : RefGrid) (next : RefGrid)
    (rainfallInput globalDrainMod deltaTime : ℚ) (h : CellHeap)
    (row col : ℕ) : CellHeap :=
  let cell := readCell h (refAt g row col)
  let water0 :=
    cell.waterLevel +
      (if cell.isRiver then rainfallInput * 1.5 else rainfallInput * 0.3)
  let flowed := (getNeighborsH h g row col).foldl
    (flowNeighbor next cell deltaTime) (water0, h)
  let water1 := flowed.1 - cell.drainageRate * globalDrainMod * deltaTime
  writeCell flowed.2 (refAt next row col)
    (fun c => { c with waterLevel := max 0 (min 1 water1) })

/-- floodGrid.ts `stepFloodGrid` at heap level: allocate the fresh `next`
copies, then run the row-major double loop, returning the final heap and
the references of the returned grid. -/
def stepFloodGridH (h : CellHeap) (g : RefGrid) (params : SimulationParams)
    (deltaTime : ℚ) : CellHeap × RefGrid :=
  let alloc := allocNext h g
  let rainfallInput := min (params.rainfall / 150) 1 * 0.08 * deltaTime
  let globalDrainMod := params.drainageCapacity
  let finalHeap := (List.range GRID_ROWS).foldl
    (fun hh row =>
      (List.range GRID_COLS).foldl
        (fun hh2 col =>
          stepCellH g alloc.2 rainfallInput globalDrainMod deltaTime hh2 row col)
        hh)
    alloc.1
  (finalHeap, alloc.2)

/-- The initial heap holding exactly the input grid's cell objects, row
major. -/
def initHeap (cells : List (List GridCell)) : CellHeap :=
  cells.flatten

/-- The references of the input grid into `initHeap`: row `r`, column `c`
is address `GRID_COLS * r + c`. -/
def initRefs (cells : List (List GridCell)) : RefGrid :=
  (List.range cells.length).map (fun r =>
    (List.range ((cells.getD r []).length)).map (fun c => GRID_COLS * r + c))

/-- Well-formedness of an input grid for the heap semantics: 16 rows of 20
cells, and every cell's `row` / `col` fields are in range (true of every
grid `createFloodGrid` produces and every grid `stepFloodGrid` returns).
The in-range fields make the source's `next[n.row][n.col]` accesses
well-defined. -/
def GridCellsWF (cells : List (List GridCell)) : Prop :=
  cells.length = GRID_ROWS ∧
  (∀ row ∈ cells, row.length = GRID_COLS) ∧
  (∀ cell ∈ cells.flatten, cell.row < GRID_ROWS ∧ cell.col < GRID_COLS)

instance (cells : List (List GridCell)) : Decidable (GridCellsWF cells) := by
  unfold GridCellsWF; infer_instance

/-- A graph whose single edge (the "zone-1"→"zone-4" road of the default
topology) is already blocked, used as a concrete input below. -/
def blockedEdgeGraph : InfrastructureGraph :=
  { nodes := defaultNodes,
    edges := [{ mkEdge "zone-1" "zone-4" 8 2000 EdgeType.road 0.7 with
                  blocked := true }] }

/-- A dry uniform 16×20 grid with well-formed `row` / `col` fields, used
as a concrete input below. -/
def uniformCells : List (List GridCell) :=
  (List.range GRID_ROWS).map (fun row =>
    (List.range GRID_COLS).map (fun col => plainCell row col 5 0))

-- ═══════════════════════════════════════════════════════════════════════════
-- THEOREMS
-- ═══════════════════════════════════════════════════════════════════════════

-- shared rounding lemmas ----------------------------------------------------

lemma jsRound_le (x : ℚ) : (jsRound x : ℚ) ≤ x + 1/2 := by
  unfold jsRound
  exact Int.floor_le _

lemma lt_jsRound (x : ℚ) : x - 1/2 < (jsRound x : ℚ) := by
  unfold jsRound
  have := Int.sub_one_lt_floor (x + 1/2)
  linarith

lemma jsRound_nonneg {x : ℚ} (h : 0 ≤ x) : 0 ≤ jsRound x := by
  unfold jsRound
  exact Int.floor_nonneg.mpr (by linarith)

lemma jsRound_le_int {x : ℚ} {n : ℤ} (h : x ≤ (n : ℚ)) : jsRound x ≤ n := by
  unfold jsRound
  have h1 : ⌊x + 1/2⌋ ≤ ⌊(n : ℚ) + 1/2⌋ := Int.floor_le_floor (by linarith)
  have h2 : ⌊(n : ℚ) + 1/2⌋ = n + ⌊(1/2 : ℚ)⌋ := Int.floor_int_add n (1/2)
  have h3 : ⌊(1/2 : ℚ)⌋ = 0 := by norm_num
  omega

/-- C4: for every telemetry packet, `calculateLiveRisk` returns the JS
rounding of the clamped value min(100, max(0, 100·(0.4·min(rainfall/150,1)
+ 0.2·(1−drainageCapacity) + 0.2·populationDensity + 0.2·socialSpike))),
an integer always within [0,100]; it is 0 at rainfall=0, drainageCapacity=1,
populationDensity=0, socialSpike=0 and 100 whenever rainfall ≥ 150,
drainageCapacity=0, populationDensity=1, socialSpike=1. -/
theorem c4_calculateLiveRisk_spec :
    (∀ t : TelemetryPacket,
      calculateLiveRisk t =
        jsRound (min 100 (max 0 (100 *
          (0.4 * min (t.rainfall / 150) 1 + 0.2 * (1 - t.drainageCapacity) +
            0.2 * t.populationDensity + 0.2 * t.socialSpike)))) ∧
      0 ≤ calculateLiveRisk t ∧ calculateLiveRisk t ≤ 100) ∧
    calculateLiveRisk ⟨0, 1, 0, 0⟩ = 0 ∧
    (∀ r : ℚ, 150 ≤ r → calculateLiveRisk ⟨r, 0, 1, 1⟩ = 100) := by
  have hclamp : ∀ z : ℚ, max 0 (min 100 z) = min 100 (max 0 z) := by
    intro z
    rw [max_min_distrib_left]
    norm_num
  refine ⟨fun t => ⟨?_, ?_, ?_⟩, ?_, fun r hr => ?_⟩
  · simp only [calculateLiveRisk]
    rw [hclamp]
    congr 2
    ring_nf
  · simp only [calculateLiveRisk]
    exact jsRound_nonneg (le_max_left _ _)
  · simp only [calculateLiveRisk]
    refine jsRound_le_int (n := 100) ?_
    have : min (100 : ℚ)
        ((min (t.rainfall / 150) 1 * 0.4 + (1 - t.drainageCapacity) * 0.2 +
          t.populationDensity * 0.2 + t.socialSpike * 0.2) * 100) ≤ 100 :=
      min_le_left _ _
    push_cast
    exact max_le (by norm_num) this
  · decide
  · simp only [calculateLiveRisk]
    have h1 : min (r / 150) 1 = 1 := by
      refine min_eq_right ?_
      rw [le_div_iff₀ (by norm_num : (0 : ℚ) < 150)]
      linarith
    rw [h1]
    norm_num [jsRound]

/-- C4 witness: the theorem applied at rainfall 200 (discharging the
`150 ≤ r` hypothesis) and at a concrete packet. -/
theorem c4_calculateLiveRisk_spec_witness :
    calculateLiveRisk ⟨200, 0, 1, 1⟩ = 100 ∧
    0 ≤ calculateLiveRisk ⟨80, 0.5, 0.3, 0.1⟩ ∧
    calculateLiveRisk ⟨80, 0.5, 0.3, 0.1⟩ ≤ 100 :=
  ⟨c4_calculateLiveRisk_spec.2.2 200 (by norm_num),
   (c4_calculateLiveRisk_spec.1 ⟨80, 0.5, 0.3, 0.1⟩).2.1,
   (c4_calculateLiveRisk_spec.1 ⟨80, 0.5, 0.3, 0.1⟩).2.2⟩

/-- C8: whenever the four weighted sensitivity terms have a strictly
positive sum, the four integer percentages of `computeSensitivity` sum to
100 ± 2; when the terms sum to zero, all four are exactly 0. -/
theorem c8_computeSensitivity_sum (t : TelemetryPacket) :
    (0 < sensitivityTotal t →
      98 ≤ sensitivitySum t ∧ sensitivitySum t ≤ 102) ∧
    (sensitivityTotal t = 0 →
      computeSensitivity t =
        { rainfallImpact := 0, drainageImpact := 0, populationImpact := 0,
          socialImpact := 0 }) := by
  constructor
  · intro h
    have hne : sensitivityTotal t ≠ 0 := ne_of_gt h
    have hshare : (sensitivityRaw t).1 / sensitivityTotal t * 100 +
        (sensitivityRaw t).2.1 / sensitivityTotal t * 100 +
        (sensitivityRaw t).2.2.1 / sensitivityTotal t * 100 +
        (sensitivityRaw t).2.2.2 / sensitivityTotal t * 100 = 100 := by
      field_simp
      simp only [sensitivityTotal]
      ring
    have e : sensitivitySum t =
        jsRound ((sensitivityRaw t).1 / sensitivityTotal t * 100) +
        jsRound ((sensitivityRaw t).2.1 / sensitivityTotal t * 100) +
        jsRound ((sensitivityRaw t).2.2.1 / sensitivityTotal t * 100) +
        jsRound ((sensitivityRaw t).2.2.2 / sensitivityTotal t * 100) := by
      simp [sensitivitySum, computeSensitivity, if_pos h]
    have b1l := lt_jsRound ((sensitivityRaw t).1 / sensitivityTotal t * 100)
    have b1u := jsRound_le ((sensitivityRaw t).1 / sensitivityTotal t * 100)
    have b2l := lt_jsRound ((sensitivityRaw t).2.1 / sensitivityTotal t * 100)
    have b2u := jsRound_le ((sensitivityRaw t).2.1 / sensitivityTotal t * 100)
    have b3l := lt_jsRound ((sensitivityRaw t).2.2.1 / sensitivityTotal t * 100)
    have b3u := jsRound_le ((sensitivityRaw t).2.2.1 / sensitivityTotal t * 100)
    have b4l := lt_jsRound ((sensitivityRaw t).2.2.2 / sensitivityTotal t * 100)
    have b4u := jsRound_le ((sensitivityRaw t).2.2.2 / sensitivityTotal t * 100)
    have key : (98 : ℚ) < (sensitivitySum t : ℚ) ∧
        (sensitivitySum t : ℚ) ≤ 102 := by
      rw [e]
      push_cast
      constructor <;> linarith
    constructor
    · have : (98 : ℤ) < sensitivitySum t := by exact_mod_cast key.1
      omega
    · exact_mod_cast key.2
  · intro h
    simp [computeSensitivity, h]

/-- C8 witness: the theorem applied at a saturated packet (positive total)
and at the all-safe packet (zero total). -/
theorem c8_computeSensitivity_sum_witness :
    (98 ≤ sensitivitySum ⟨150, 0, 1, 1⟩ ∧ sensitivitySum ⟨150, 0, 1, 1⟩ ≤ 102) ∧
    computeSensitivity ⟨0, 1, 0, 0⟩ =
      { rainfallImpact := 0, drainageImpact := 0, populationImpact := 0,
        socialImpact := 0 } :=
  ⟨(c8_computeSensitivity_sum ⟨150, 0, 1, 1⟩).1 (by norm_num [sensitivityTotal, sensitivityRaw]),
   (c8_computeSensitivity_sum ⟨0, 1, 0, 0⟩).2 (by norm_num [sensitivityTotal, sensitivityRaw])⟩

-- state machine lemmas ------------------------------------------------------

lemma mem_VALID_TRANSITIONS_iff (f t : CrisisStatus) :
    t ∈ VALID_TRANSITIONS f ↔ t = statusSuccessor f := by
  cases f <;> cases t <;> decide

/-- C6: the orchestrator's `transition` changes the status exactly when the
requested target is the successor of the current status in the chain
idle→detected→simulating→negotiating→mitigating→mitigated→resolved→idle,
appending one state-transition record; any other request leaves the status
and the transition records unchanged and only logs a warning (`transition`
is total — it never throws). -/
theorem c6_transition_guard (s : OrchestratorState) (to_ : CrisisStatus)
    (agent : AgentName) :
    (to_ = statusSuccessor s.crisisStatus →
      transition s to_ agent =
        { s with
          crisisStatus := to_
          stateTransitions :=
            s.stateTransitions ++ [(s.crisisStatus, to_, agent)] }) ∧
    (to_ ≠ statusSuccessor s.crisisStatus →
      transition s to_ agent =
        { s with
          invalidWarnings := s.invalidWarnings ++ [(s.crisisStatus, to_)] }) := by
  constructor
  · intro h
    have hm : to_ ∈ VALID_TRANSITIONS s.crisisStatus :=
      (mem_VALID_TRANSITIONS_iff _ _).mpr h
    simp [transition, hm]
  · intro h
    have hm : ¬ to_ ∈ VALID_TRANSITIONS s.crisisStatus := fun hc =>
      h ((mem_VALID_TRANSITIONS_iff _ _).mp hc)
    simp [transition, hm]

/-- C6 witness: the theorem applied at the valid idle→detected request and
at the invalid idle→mitigating request. -/
theorem c6_transition_guard_witness :
    transition ⟨CrisisStatus.idle, [], []⟩ CrisisStatus.detected
        AgentName.Sentinel =
      ⟨CrisisStatus.detected,
       [(CrisisStatus.idle, CrisisStatus.detected, AgentName.Sentinel)], []⟩ ∧
    transition ⟨CrisisStatus.idle, [], []⟩ CrisisStatus.mitigating
        AgentName.Risk =
      ⟨CrisisStatus.idle, [], [(CrisisStatus.idle, CrisisStatus.mitigating)]⟩ :=
  ⟨(c6_transition_guard ⟨CrisisStatus.idle, [], []⟩ CrisisStatus.detected
      AgentName.Sentinel).1 (by decide),
   (c6_transition_guard ⟨CrisisStatus.idle, [], []⟩ CrisisStatus.mitigating
      AgentName.Risk).2 (by decide)⟩

-- negotiation lemmas --------------------------------------------------------

lemma Priority.ne_immediate_iff (p : Priority) :
    ¬ p = Priority.immediate ↔ p = Priority.staggered := by
  cases p <;> simp

/-- C1 counterexample: a demand that satisfies the zone, pump and fleet
constraints but exceeds the shelter capacity (population 100 against
shelter capacity 50); `checkFeasibility` returns `feasible: false` where
the claim asserts `feasible: true`. -/
theorem c1_shelter_blocks_counterexample :
    (((⟨[], 100, Priority.staggered, 0⟩ : EvacuationDemand).zones.length : ℚ) ≤
        (⟨1, 10, 1, 50, 0⟩ : ResourceInventory).maxSimultaneousZones ∧
      (⟨[], 100, Priority.staggered, 0⟩ : EvacuationDemand).pumpsRequested ≤
        (⟨1, 10, 1, 50, 0⟩ : ResourceInventory).pumpUnits ∧
      (⟨[], 100, Priority.staggered, 0⟩ : EvacuationDemand).priority =
        Priority.staggered ∧
      (⟨[], 100, Priority.staggered, 0⟩ : EvacuationDemand).totalPopulation >
        (⟨1, 10, 1, 50, 0⟩ : ResourceInventory).shelterCapacity) ∧
    (checkFeasibility ⟨[], 100, Priority.staggered, 0⟩
        ⟨1, 10, 1, 50, 0⟩).feasible = false := by
  decide

/-- C1 (amended): `checkFeasibility` returns `feasible: true` exactly when
all FOUR constraints hold — the shelter-capacity condition equally blocks
feasibility (the source pushes its issue into the same list whose emptiness
decides the result) — and a shelter-only violation yields an empty
suggested fix. -/
theorem c1_feasibility_amended (demand : EvacuationDemand)
    (inventory : ResourceInventory) :
    ((checkFeasibility demand inventory).feasible = true ↔
      ((demand.zones.length : ℚ) ≤ inventory.maxSimultaneousZones ∧
       demand.pumpsRequested ≤ inventory.pumpUnits ∧
       (demand.totalPopulation ≤ inventory.evacuationVehicles * 55 ∨
         demand.priority = Priority.staggered) ∧
       demand.totalPopulation ≤ inventory.shelterCapacity)) ∧
    (shelterOnlyViolation demand inventory →
      (checkFeasibility demand inventory).feasible = false ∧
      (checkFeasibility demand inventory).suggestedFix =
        some { priority := none, pumpsRequested := none }) := by
  constructor
  · by_cases hz : (demand.zones.length : ℚ) > inventory.maxSimultaneousZones <;>
    by_cases hp : demand.pumpsRequested > inventory.pumpUnits <;>
    by_cases hf : demand.totalPopulation > inventory.evacuationVehicles * 55 ∧
        demand.priority = Priority.immediate <;>
    by_cases hs : demand.totalPopulation > inventory.shelterCapacity <;>
    simp_all [checkFeasibility, not_lt, not_and_or, Priority.ne_immediate_iff,
      not_le]
    all_goals
      rcases le_or_lt demand.totalPopulation
        (inventory.evacuationVehicles * 55) with hle | hlt
      · exact Or.inl hle
      · exact Or.inr (hf hlt)
  · intro h
    obtain ⟨h1, h2, h3, h4⟩ := h
    have hz : ¬ ((demand.zones.length : ℚ) > inventory.maxSimultaneousZones) :=
      not_lt.mpr h1
    have hp : ¬ (demand.pumpsRequested > inventory.pumpUnits) := not_lt.mpr h2
    have hf : ¬ (demand.totalPopulation > inventory.evacuationVehicles * 55 ∧
        demand.priority = Priority.immediate) := by
      rcases h3 with h3 | h3
      · exact fun hc => absurd hc.1 (not_lt.mpr h3)
      · exact fun hc => by
          rw [h3] at hc
          exact absurd hc.2 (by simp)
    refine ⟨?_, ?_⟩ <;> simp [checkFeasibility, hz, hp, hf, h4]

/-- C1 witness for the amended theorem: feasibility of a satisfiable
demand, and the empty fix on a shelter-only violation. -/
theorem c1_feasibility_amended_witness :
    (checkFeasibility ⟨["a"], 100, Priority.staggered, 2⟩
        ⟨3, 42, 1, 18000, 6⟩).feasible = true ∧
    (checkFeasibility ⟨[], 100, Priority.staggered, 0⟩
        ⟨1, 10, 1, 50, 0⟩).suggestedFix =
      some { priority := none, pumpsRequested := none } :=
  ⟨(c1_feasibility_amended ⟨["a"], 100, Priority.staggered, 2⟩
      ⟨3, 42, 1, 18000, 6⟩).1.mpr (by norm_num),
   ((c1_feasibility_amended ⟨[], 100, Priority.staggered, 0⟩
      ⟨1, 10, 1, 50, 0⟩).2 (by norm_num [shelterOnlyViolation])).2⟩

lemma checkFeasibility_shelterOnly {demand : EvacuationDemand}
    {inventory : ResourceInventory}
    (h : shelterOnlyViolation demand inventory) :
    checkFeasibility demand inventory =
      { feasible := false, issues := [FeasibilityIssue.shelterOverflow],
        suggestedFix := some { priority := none, pumpsRequested := none } } := by
  obtain ⟨h1, h2, h3, h4⟩ := h
  have hz : ¬ ((demand.zones.length : ℚ) > inventory.maxSimultaneousZones) :=
    not_lt.mpr h1
  have hp : ¬ (demand.pumpsRequested > inventory.pumpUnits) := not_lt.mpr h2
  have hf : ¬ (demand.totalPopulation > inventory.evacuationVehicles * 55 ∧
      demand.priority = Priority.immediate) := by
    rcases h3 with h3 | h3
    · exact fun hc => absurd hc.1 (not_lt.mpr h3)
    · exact fun hc => by
        rw [h3] at hc
        exact absurd hc.2 (by simp)
  simp [checkFeasibility, hz, hp, hf, h4]

lemma negotiationLoop_shelterOnly {demand : EvacuationDemand}
    {inventory : ResourceInventory}
    (h : shelterOnlyViolation demand inventory) :
    ∀ (fuel roundsDone : ℕ) (fa : Bool),
      (negotiationLoop inventory demand fuel roundsDone fa).finalDemand =
          demand ∧
      (negotiationLoop inventory demand fuel roundsDone fa).rounds =
          roundsDone + fuel ∧
      (negotiationLoop inventory demand fuel roundsDone fa).timedOut = true := by
  intro fuel
  induction fuel with
  | zero => intro r fa; exact ⟨rfl, rfl, rfl⟩
  | succ n ih =>
    intro r fa
    have hc := checkFeasibility_shelterOnly h
    have : negotiationLoop inventory demand (n + 1) r fa =
        negotiationLoop inventory demand n (r + 1) true := by
      simp [negotiationLoop, hc, applySuggestedFix]
    rw [this]
    obtain ⟨e1, e2, e3⟩ := ih (r + 1) true
    exact ⟨e1, by rw [e2]; omega, e3⟩

/-- C10 counterexample: on the orchestrator's main run the shelter
condition is NOT the only violated constraint (2 zones exceed the maximum
of 1 simultaneous zone) and the negotiation DOES modify the demand (round
1 caps the pump request from 5 to the 3 available units), contrary to the
claim. -/
theorem c10_main_run_counterexample :
    ¬ shelterOnlyViolation mainRunDemand mainRunInventory ∧
    (runDynamicNegotiation mainRunDemand mainRunInventory 5).finalDemand ≠
      mainRunDemand := by
  decide

/-- C10 (amended): whenever the shelter-capacity condition is the only
violated constraint, `checkFeasibility` returns `feasible:false` with an
empty suggested fix, so `runDynamicNegotiation` never modifies the demand
and times out after exactly `maxRounds` rounds.  The orchestrator's main
run (67,000 people against the audited 18,000 shelter capacity) is NOT
that situation: its demand also violates the zone, pump and fleet
constraints, round 1 adapts it to a staggered 3-pump demand, and the
negotiation then stalls on the persisting shelter and zone overflows,
timing out after exactly 5 rounds. -/
theorem c10_shelter_timeout (demand : EvacuationDemand)
    (inventory : ResourceInventory) (maxRounds : ℕ) :
    (shelterOnlyViolation demand inventory →
      (checkFeasibility demand inventory).feasible = false ∧
      (checkFeasibility demand inventory).suggestedFix =
        some { priority := none, pumpsRequested := none } ∧
      (runDynamicNegotiation demand inventory maxRounds).finalDemand =
        demand ∧
      (runDynamicNegotiation demand inventory maxRounds).rounds = maxRounds ∧
      (runDynamicNegotiation demand inventory maxRounds).timedOut = true) ∧
    ((mainRunDemand.zones.length : ℚ) >
        mainRunInventory.maxSimultaneousZones ∧
      runDynamicNegotiation mainRunDemand mainRunInventory 5 =
        { finalDemand :=
            { zones := mainRunDemand.zones, totalPopulation := 67000,
              priority := Priority.staggered, pumpsRequested := 3 }
          rounds := 5, timedOut := true, fixApplied := true }) := by
  constructor
  · intro h
    have hc := checkFeasibility_shelterOnly h
    obtain ⟨e1, e2, e3⟩ := negotiationLoop_shelterOnly h maxRounds 0 false
    exact ⟨by rw [hc], by rw [hc], e1, by simpa using e2, e3⟩
  · exact ⟨by decide, by decide⟩

/-- C10 witness: the amended theorem applied to a concrete shelter-only
violation (population 100, shelter capacity 50, three rounds). -/
theorem c10_shelter_timeout_witness :
    (runDynamicNegotiation ⟨[], 100, Priority.staggered, 0⟩
        ⟨1, 10, 1, 50, 0⟩ 3).finalDemand =
      (⟨[], 100, Priority.staggered, 0⟩ : EvacuationDemand) ∧
    (runDynamicNegotiation ⟨[], 100, Priority.staggered, 0⟩
        ⟨1, 10, 1, 50, 0⟩ 3).rounds = 3 ∧
    (runDynamicNegotiation ⟨[], 100, Priority.staggered, 0⟩
        ⟨1, 10, 1, 50, 0⟩ 3).timedOut = true := by
  have h := (c10_shelter_timeout ⟨[], 100, Priority.staggered, 0⟩
    ⟨1, 10, 1, 50, 0⟩ 3).1 (by norm_num [shelterOnlyViolation])
  exact ⟨h.2.2.1, h.2.2.2.1, h.2.2.2.2⟩

-- C5 lemmas ------------------------------------------------------------------

lemma negotiationLoop_rounds_le (inventory : ResourceInventory) :
    ∀ (fuel : ℕ) (demand : EvacuationDemand) (r : ℕ) (fa : Bool),
      (negotiationLoop inventory demand fuel r fa).rounds ≤ r + fuel := by
  intro fuel
  induction fuel with
  | zero => intro demand r fa; simp [negotiationLoop]
  | succ n ih =>
    intro demand r fa
    by_cases hfeas : (checkFeasibility demand inventory).feasible = true
    · simp [negotiationLoop, hfeas]
    · rw [Bool.not_eq_true] at hfeas
      simp only [negotiationLoop, hfeas, Bool.false_eq_true, if_false]
      calc (negotiationLoop inventory _ n (r + 1) true).rounds
          ≤ (r + 1) + n := ih _ (r + 1) true
        _ = r + (n + 1) := by omega

lemma applySuggestedFix_pumpsRequested (demand : EvacuationDemand)
    (fix : SuggestedFix) :
    (applySuggestedFix demand fix).pumpsRequested =
      fix.pumpsRequested.getD demand.pumpsRequested := by
  rcases fix with ⟨fp, fq⟩
  cases fp <;> cases fq <;> simp [applySuggestedFix]

lemma checkFeasibility_cases (demand : EvacuationDemand)
    (inventory : ResourceInventory) :
    ((checkFeasibility demand inventory).feasible = true ∧
      (checkFeasibility demand inventory).suggestedFix = none) ∨
    ((checkFeasibility demand inventory).feasible = false ∧
      (checkFeasibility demand inventory).suggestedFix = some
        { priority :=
            if (demand.zones.length : ℚ) > inventory.maxSimultaneousZones ∨
                (demand.totalPopulation > inventory.evacuationVehicles * 55 ∧
                  demand.priority = Priority.immediate)
              then some Priority.staggered else none
          pumpsRequested :=
            if demand.pumpsRequested > inventory.pumpUnits
              then some inventory.pumpUnits else none }) := by
  by_cases hz : (demand.zones.length : ℚ) > inventory.maxSimultaneousZones <;>
  by_cases hp : demand.pumpsRequested > inventory.pumpUnits <;>
  by_cases hf : demand.totalPopulation > inventory.evacuationVehicles * 55 ∧
      demand.priority = Priority.immediate <;>
  by_cases hs : demand.totalPopulation > inventory.shelterCapacity <;>
  simp [checkFeasibility, hz, hp, hf, hs]

lemma fix_pumps_le {demand : EvacuationDemand} {inventory : ResourceInventory}
    {fix : SuggestedFix}
    (hfix : (checkFeasibility demand inventory).suggestedFix = some fix) :
    (applySuggestedFix demand fix).pumpsRequested ≤ inventory.pumpUnits := by
  rcases checkFeasibility_cases demand inventory with ⟨_, hnone⟩ | ⟨_, hsome⟩
  · rw [hnone] at hfix
    exact absurd hfix (by simp)
  · rw [hfix] at hsome
    obtain rfl := (Option.some.injEq _ _).mp hsome.symm
    rw [applySuggestedFix_pumpsRequested]
    by_cases hp : demand.pumpsRequested > inventory.pumpUnits
    · simp [hp]
    · simp [hp, not_lt.mp hp]

lemma negotiationLoop_pumps_le (inventory : ResourceInventory) :
    ∀ (fuel : ℕ) (demand : EvacuationDemand) (r : ℕ) (fa : Bool),
      (fa = true → demand.pumpsRequested ≤ inventory.pumpUnits) →
      ((negotiationLoop inventory demand fuel r fa).fixApplied = true →
        (negotiationLoop inventory demand fuel r
            fa).finalDemand.pumpsRequested ≤ inventory.pumpUnits) := by
  intro fuel
  induction fuel with
  | zero => intro demand r fa hfa; exact hfa
  | succ n ih =>
    intro demand r fa hfa
    by_cases hfeas : (checkFeasibility demand inventory).feasible = true
    · simpa [negotiationLoop, hfeas] using hfa
    · rw [Bool.not_eq_true] at hfeas
      rcases checkFeasibility_cases demand inventory with ⟨ht, _⟩ | ⟨_, hsome⟩
      · rw [ht] at hfeas
        cases hfeas
      · simp only [negotiationLoop, hfeas, Bool.false_eq_true, if_false, hsome]
        exact ih _ (r + 1) true (fun _ => fix_pumps_le hsome)

/-- C5: `runDynamicNegotiation` always returns a round count bounded by
`maxRounds`, and whenever the adaptation branch has applied a suggested fix
in at least one round, the returned demand's pump request does not exceed
the inventory's `pumpUnits` — in the consensus and in the timed-out outcome
alike. -/
theorem c5_negotiation_bounded (demand : EvacuationDemand)
    (inventory : ResourceInventory) (maxRounds : ℕ) :
    (runDynamicNegotiation demand inventory maxRounds).rounds ≤ maxRounds ∧
    ((runDynamicNegotiation demand inventory maxRounds).fixApplied = true →
      (runDynamicNegotiation demand inventory
          maxRounds).finalDemand.pumpsRequested ≤ inventory.pumpUnits) := by
  constructor
  · simpa using negotiationLoop_rounds_le inventory maxRounds demand 0 false
  · exact negotiationLoop_pumps_le inventory maxRounds demand 0 false
      (by intro h; cases h)

/-- C5 witness: the theorem applied to the orchestrator's main-run inputs,
whose negotiation applies fixes and times out after all 5 rounds. -/
theorem c5_negotiation_bounded_witness :
    (runDynamicNegotiation mainRunDemand mainRunInventory 5).rounds ≤ 5 ∧
    (runDynamicNegotiation mainRunDemand mainRunInventory
        5).finalDemand.pumpsRequested ≤ mainRunInventory.pumpUnits :=
  ⟨(c5_negotiation_bounded mainRunDemand mainRunInventory 5).1,
   (c5_negotiation_bounded mainRunDemand mainRunInventory 5).2 (by decide)⟩

-- C7: blocked edges stay blocked ---------------------------------------------

/-- C7: once a graph edge is blocked it stays blocked under every further
`simulateFloodStep` (any rainfall) — the blocking pass only ever sets
`blocked := true` — and `reset()` reinstalls the default (unblocked)
topology.  The query methods `dijkstra` / `findEvacuationRoutes` are
modelled as pure functions of the graph (the source methods only read
`this.nodes` / `this.edges`), so no query can unblock an edge. -/
theorem c7_blocked_stays_blocked (g : InfrastructureGraph) (rainfall : ℚ)
    (i : ℕ) (e : GraphEdge) (h : g.edges[i]? = some e)
    (hb : e.blocked = true) :
    (∃ e', (g.simulateFloodStep rainfall).edges[i]? = some e' ∧
      e'.blocked = true) ∧
    ∀ g' : InfrastructureGraph,
      g'.reset = { nodes := defaultNodes, edges := defaultEdges } := by
  constructor
  · simp only [InfrastructureGraph.simulateFloodStep, blockEdges,
      List.getElem?_map, h, Option.map_some]
    refine ⟨_, rfl, ?_⟩
    beta_reduce
    split
    · split
      · rfl
      · split
        · rfl
        · exact hb
    · exact hb
  · intro g'
    rfl

/-- C7 witness: the theorem applied to a graph whose only edge is already
blocked, under heavy rainfall. -/
theorem c7_blocked_stays_blocked_witness :
    ∃ e', (blockedEdgeGraph.simulateFloodStep 150).edges[0]? = some e' ∧
      e'.blocked = true :=
  (c7_blocked_stays_blocked blockedEdgeGraph 150 0
    { mkEdge "zone-1" "zone-4" 8 2000 EdgeType.road 0.7 with blocked := true }
    rfl rfl).1

-- C3: Monte Carlo reproducibility --------------------------------------------

/-- C3: `runMonteCarlo` is deterministic in `(baseTelemetry, iterations,
seed)`: because the shared PRNG is reseeded first (`seededRng.reseed(seed)`
replaces the stored seed, the generator closure, and the call counter),
two calls return identical results whatever state the shared generator was
left in between them — for every interpretation of the JS `Math` host
functions. -/
theorem c3_runMonteCarlo_deterministic (jm : JsMath) (rng1 rng2 : SeededRNG)
    (baseTelemetry : TelemetryPacket) (iterations : ℕ) (seed : ℚ) :
    (runMonteCarlo jm rng1 baseTelemetry iterations seed).1 =
      (runMonteCarlo jm rng2 baseTelemetry iterations seed).1 := rfl

-- C2: the per-cell clamp can be bypassed -------------------------------------

set_option maxRecDepth 1000000 in
/-- C2: `stepFloodGrid` CAN return a water level above 1.  On
`overflowGrid` — all input water levels in [0,1], zero rainfall, zero
drainage capacity — cell (0,0) is clamped to 1 when it is processed, but
its higher neighbor (1,0), processed later in the row-major scan, then adds
its downhill out-flow directly to `next[0][0].waterLevel`, leaving 509/500
= 1.018 > 1 in the returned grid. -/
theorem c2_waterLevel_exceeds_one :
    (∀ cell ∈ overflowGrid.flatten,
      0 ≤ cell.waterLevel ∧ cell.waterLevel ≤ 1) ∧
    (getCell (stepFloodGrid overflowGrid
        { rainfall := 0, drainageCapacity := 0 } 1) 0 0).waterLevel =
      509 / 500 ∧
    (1 : ℚ) < (getCell (stepFloodGrid overflowGrid
        { rainfall := 0, drainageCapacity := 0 } 1) 0 0).waterLevel := by
  have hval : (getCell (stepFloodGrid overflowGrid
      { rainfall := 0, drainageCapacity := 0 } 1) 0 0).waterLevel =
      509 / 500 := by decide
  refine ⟨by decide, hval, ?_⟩
  rw [hval]
  norm_num

-- C9 lemmas: heap-level frame reasoning --------------------------------------

lemma getD_modifyAt_ne {α : Type} (f : α → α) :
    ∀ (n m : ℕ) (l : List α) (d : α), m ≠ n →
      (modifyAt f n l).getD m d = l.getD m d := by
  intro n m l
  induction l generalizing n m with
  | nil => intro d _; cases n <;> rfl
  | cons a as ih =>
    intro d hne
    cases n with
    | zero =>
      cases m with
      | zero => exact absurd rfl hne
      | succ m' => simp [modifyAt]
    | succ n' =>
      cases m with
      | zero => simp [modifyAt]
      | succ m' =>
        simp only [modifyAt, List.getD_cons_succ]
        exact ih n' m' _ (fun hc => hne (by rw [hc]))

lemma readCell_writeCell_ne (h : CellHeap) (a b : ℕ)
    (f : GridCell → GridCell) (hne : a ≠ b) :
    readCell (writeCell h b f) a = readCell h a :=
  getD_modifyAt_ne f b a h default hne

lemma foldl_preserve {α β : Type} (P : α → Prop) (f : α → β → α) :
    ∀ (l : List β) (init : α), P init →
      (∀ s b, b ∈ l → P s → P (f s b)) → P (l.foldl f init) := by
  intro l
  induction l with
  | nil => intro init h _; exact h
  | cons b bs ih =>
    intro init h hstep
    exact ih _ (hstep init b (by simp) h)
      (fun s b' hb' => hstep s b' (by simp [hb']))

lemma allocRow_spec (row : List ℕ) : ∀ h : CellHeap,
    (∃ t, (allocRow h row).1 = h ++ t) ∧
    (allocRow h row).2.length = row.length ∧
    (∀ x ∈ (allocRow h row).2, h.length ≤ x) := by
  induction row with
  | nil => intro h; exact ⟨⟨[], by simp [allocRow]⟩, rfl, by simp [allocRow]⟩
  | cons a rest ih =>
    intro h
    obtain ⟨⟨t, ht⟩, hlen, hmem⟩ := ih (h ++ [readCell h a])
    refine ⟨⟨[readCell h a] ++ t, ?_⟩, ?_, ?_⟩
    · simp [allocRow, ht]
    · simp [allocRow, hlen]
    · intro x hx
      simp only [allocRow, List.mem_cons] at hx
      rcases hx with rfl | hx
      · exact le_refl _
      · have := hmem x hx
        simp only [List.length_append, List.length_cons,
          List.length_nil] at this
        omega

lemma allocNext_spec (g : RefGrid) : ∀ h : CellHeap,
    (∃ t, (allocNext h g).1 = h ++ t) ∧
    (allocNext h g).2.length = g.length ∧
    (∀ i : ℕ, ((allocNext h g).2.getD i []).length = (g.getD i []).length) ∧
    (∀ rrow ∈ (allocNext h g).2, ∀ x ∈ rrow, h.length ≤ x) := by
  induction g with
  | nil =>
    intro h
    exact ⟨⟨[], by simp [allocNext]⟩, rfl, fun i => rfl, by simp [allocNext]⟩
  | cons row rows ih =>
    intro h
    obtain ⟨⟨t1, ht1⟩, hlen1, hmem1⟩ := allocRow_spec row h
    obtain ⟨⟨t2, ht2⟩, hlen2, hidx2, hmem2⟩ := ih (allocRow h row).1
    refine ⟨⟨t1 ++ t2, ?_⟩, ?_, ?_, ?_⟩
    · simp only [allocNext]
      rw [ht2, ht1, List.append_assoc]
    · simp [allocNext, hlen2]
    · intro i
      cases i with
      | zero => simpa [allocNext] using hlen1
      | succ i' => simpa [allocNext] using hidx2 i'
    · intro rrow hrrow x hx
      simp only [allocNext, List.mem_cons] at hrrow
      rcases hrrow with rfl | hrrow
      · exact hmem1 x hx
      · have h1 := hmem2 rrow hrrow x hx
        have h2 : h.length ≤ (allocRow h row).1.length := by
          rw [ht1]; simp
        omega

lemma flowFold_preserves (next : RefGrid) (cell : GridCell) (dt : ℚ)
    (N : ℕ) (h0 : CellHeap)
    (hnextN : ∀ r c, r < GRID_ROWS → c < GRID_COLS → N ≤ refAt next r c) :
    ∀ (ns : List GridCell),
      (∀ n ∈ ns, n.row < GRID_ROWS ∧ n.col < GRID_COLS) →
      ∀ (st : ℚ × CellHeap),
        (∀ a, a < N → readCell st.2 a = readCell h0 a) →
        ∀ a, a < N →
          readCell ((ns.foldl (flowNeighbor next cell dt) st).2) a =
            readCell h0 a := by
  intro ns
  induction ns with
  | nil => intro _ st hst a ha; exact hst a ha
  | cons n rest ih =>
    intro hb st hst a ha
    rw [List.foldl_cons]
    refine ih (fun m hm => hb m (by simp [hm])) _ ?_ a ha
    intro b hbN
    have hbounds := hb n (by simp)
    have haddr : N ≤ refAt next n.row n.col :=
      hnextN n.row n.col hbounds.1 hbounds.2
    simp only [flowNeighbor]
    split
    · exact (readCell_writeCell_ne _ _ _ _ (by omega)).trans (hst b hbN)
    · split
      · exact hst b hbN
      · exact hst b hbN

lemma stepCellH_preserves (g next : RefGrid)
    (rInput gDrain dt : ℚ) (N : ℕ) (h0 : CellHeap)
    (hnextN : ∀ r c, r < GRID_ROWS → c < GRID_COLS → N ≤ refAt next r c)
    (hgaddr : ∀ r c, r < GRID_ROWS → c < GRID_COLS → refAt g r c < N)
    (hg : ∀ r c, r < GRID_ROWS → c < GRID_COLS →
      (readCell h0 (refAt g r c)).row < GRID_ROWS ∧
      (readCell h0 (refAt g r c)).col < GRID_COLS)
    (row col : ℕ) (hrow : row < GRID_ROWS) (hcol : col < GRID_COLS)
    (hh : CellHeap) (hP : ∀ a, a < N → readCell hh a = readCell h0 a) :
    ∀ a, a < N →
      readCell (stepCellH g next rInput gDrain dt hh row col) a =
        readCell h0 a := by
  intro a ha
  have hrw : ∀ r c, r < GRID_ROWS → c < GRID_COLS →
      (readCell hh (refAt g r c)).row < GRID_ROWS ∧
      (readCell hh (refAt g r c)).col < GRID_COLS := by
    intro r c hr hc
    rw [hP _ (hgaddr r c hr hc)]
    exact hg r c hr hc
  have hn : ∀ n ∈ getNeighborsH hh g row col,
      n.row < GRID_ROWS ∧ n.col < GRID_COLS := by
    intro n hmem
    simp only [getNeighborsH, List.mem_append] at hmem
    rcases hmem with ((h1 | h2) | h3) | h4
    · by_cases hc : row > 0
      · simp only [hc, if_true, List.mem_singleton] at h1
        subst h1
        exact hrw _ _ (lt_of_le_of_lt (Nat.sub_le row 1) hrow) hcol
      · simp [hc] at h1
    · by_cases hc : row < GRID_ROWS - 1
      · simp only [hc, if_true, List.mem_singleton] at h2
        subst h2
        exact hrw _ _ (by omega) hcol
      · simp [hc] at h2
    · by_cases hc : col > 0
      · simp only [hc, if_true, List.mem_singleton] at h3
        subst h3
        exact hrw _ _ hrow (lt_of_le_of_lt (Nat.sub_le col 1) hcol)
      · simp [hc] at h3
    · by_cases hc : col < GRID_COLS - 1
      · simp only [hc, if_true, List.mem_singleton] at h4
        subst h4
        exact hrw _ _ hrow (by omega)
      · simp [hc] at h4
  unfold stepCellH
  dsimp only
  rw [readCell_writeCell_ne _ _ _ _
    (by have := hnextN row col hrow hcol; omega)]
  exact flowFold_preserves next _ dt N h0 hnextN _ hn _ hP a ha

lemma getD_mem {α : Type} (l : List α) (n : ℕ) (d : α)
    (h : n < l.length) : l.getD n d ∈ l := by
  rw [List.getD_eq_getElem l d h]
  exact List.getElem_mem h

/-- C9: `stepFloodGrid` follows the functional-update discipline, shown on
the heap semantics: for every well-formed input grid — presented as a heap
of cell objects with a reference grid — the returned grid consists solely
of freshly allocated cells (every returned reference lies at or above the
old heap top, hence is distinct from every input row's cell), and after
the call every input cell still holds exactly the field values it held
before. -/
theorem c9_step_functional_update (h : CellHeap) (g : RefGrid)
    (params : SimulationParams)
    (hlen : g.length = GRID_ROWS)
    (hrows : ∀ row ∈ g, row.length = GRID_COLS)
    (haddr : ∀ row ∈ g, ∀ a ∈ row, a < h.length)
    (hcells : ∀ row ∈ g, ∀ a ∈ row,
      (readCell h a).row < GRID_ROWS ∧ (readCell h a).col < GRID_COLS) :
    (∀ a, a < h.length →
      readCell (stepFloodGridH h g params 1).1 a = readCell h a) ∧
    (∀ row col, row < GRID_ROWS → col < GRID_COLS →
      h.length ≤ refAt (stepFloodGridH h g params 1).2 row col) := by
  obtain ⟨⟨t, ht⟩, hlen2, hidx2, hmem2⟩ := allocNext_spec g h
  have hgrow : ∀ r, r < GRID_ROWS → g.getD r [] ∈ g := fun r hr =>
    getD_mem g r [] (by omega)
  have hgrowlen : ∀ r, r < GRID_ROWS → (g.getD r []).length = GRID_COLS :=
    fun r hr => hrows _ (hgrow r hr)
  have hgaddr : ∀ r c, r < GRID_ROWS → c < GRID_COLS →
      refAt g r c < h.length := by
    intro r c hr hc
    exact haddr _ (hgrow r hr)
      _ (getD_mem _ c 0 (by rw [hgrowlen r hr]; exact hc))
  have hnextN : ∀ r c, r < GRID_ROWS → c < GRID_COLS →
      h.length ≤ refAt (allocNext h g).2 r c := by
    intro r c hr hc
    have hrowmem : (allocNext h g).2.getD r [] ∈ (allocNext h g).2 :=
      getD_mem _ r [] (by omega)
    have hrlen : ((allocNext h g).2.getD r []).length = GRID_COLS := by
      rw [hidx2 r]; exact hgrowlen r hr
    exact hmem2 _ hrowmem _ (getD_mem _ c 0 (by rw [hrlen]; exact hc))
  have hg : ∀ r c, r < GRID_ROWS → c < GRID_COLS →
      (readCell h (refAt g r c)).row < GRID_ROWS ∧
      (readCell h (refAt g r c)).col < GRID_COLS := by
    intro r c hr hc
    exact hcells _ (hgrow r hr)
      _ (getD_mem _ c 0 (by rw [hgrowlen r hr]; exact hc))
  constructor
  · intro a ha
    have hbase : ∀ b, b < h.length →
        readCell (allocNext h g).1 b = readCell h b := by
      intro b hb
      rw [ht]
      exact List.getD_append _ _ _ _ hb
    unfold stepFloodGridH
    dsimp only
    refine foldl_preserve
      (P := fun hh => ∀ b, b < h.length → readCell hh b = readCell h b)
      _ _ _ hbase ?_ a ha
    intro hh row hrowmem hPstep
    have hrowlt : row < GRID_ROWS := List.mem_range.mp hrowmem
    refine foldl_preserve
      (P := fun hh2 => ∀ b, b < h.length → readCell hh2 b = readCell h b)
      _ _ _ hPstep ?_
    intro hh2 col hcolmem hP2
    have hcollt : col < GRID_COLS := List.mem_range.mp hcolmem
    exact stepCellH_preserves g (allocNext h g).2 _ _ _ h.length h
      hnextN hgaddr hg row col hrowlt hcollt hh2 hP2
  · intro row col hrow hcol
    exact hnextN row col hrow hcol

set_option maxRecDepth 1000000 in
/-- C9 witness: the theorem applied to the dry uniform 16×20 grid laid out
in a fresh heap. -/
theorem c9_step_functional_update_witness :
    (∀ a, a < (initHeap uniformCells).length →
      readCell (stepFloodGridH (initHeap uniformCells)
          (initRefs uniformCells) ⟨120, 0.3⟩ 1).1 a =
        readCell (initHeap uniformCells) a) ∧
    (∀ row col, row < GRID_ROWS → col < GRID_COLS →
      (initHeap uniformCells).length ≤
        refAt (stepFloodGridH (initHeap uniformCells)
          (initRefs uniformCells) ⟨120, 0.3⟩ 1).2 row col) :=
  c9_step_functional_update (initHeap uniformCells) (initRefs uniformCells)
    ⟨120, 0.3⟩ (by decide) (by decide) (by decide) (by decide)

end SentinelGov
